import Mathlib

/-!
Shallow embedding of the RegDoc classifier backend.

This file embeds the classification decision engine of the RegDoc document
classifier (`backend/classification.py` together with its helpers in
`backend/safety.py`, `backend/pii_detection.py` and the gateway contract of
`backend/llm_client.py`) as executable Lean definitions, and proves or refutes
the specified properties of `classify_document`.

Modelling conventions:
* Python strings are Lean `String`s; Python `pat in s` is `strContains`,
  `s.lower()` is `lowerStr`, `" ".join` is `joinSpace`, `s.strip()` is
  `String.trim`.
* Python floats are modelled as exact rationals `ℚ`; the constants involved
  (0.6, 0.7, 0.8, 0.85, 0.9) and the operations used on them (`min`, `max`,
  comparisons) are exact in both models. `qmin`/`qmax` are used so that all
  definitions reduce inside the kernel.
* Gateway JSON replies are `LlmRaw` records of optional fields;
  `run_llm_classification` performs the source's defaulting/clamping.
  Exceptions raised by the gateway are modelled with `Except GatewayError`
  in `classify_documentE`.
* The regex searches of the source (`SSN_REGEX`, `EMAIL_REGEX`, `PHONE_REGEX`,
  `detect_policy_keywords`) are hand-specialised matchers implementing the
  Python `re` semantics (leftmost match, greedy with backtracking, `\b` word
  boundaries) for those fixed patterns.
-/

/-! Section: string utilities -/

/-- Python regex word character `\w` (ASCII). -/
def wordCharB (c : Char) : Bool := c.isAlphanum || c == '_'

def optWordB : Option Char → Bool
  | none => false
  | some c => wordCharB c

/-- Python regex `\b` between an optional previous and next character:
true iff word-ness differs across the position (absent characters count as
non-word). -/
def boundB (a b : Option Char) : Bool := optWordB a != optWordB b

/-- Substring containment on char lists (Python `pat in s`). -/
def occursIn (pat : List Char) : List Char → Bool
  | [] => pat.isPrefixOf []
  | c :: rest => pat.isPrefixOf (c :: rest) || occursIn pat rest

/-- Python `pat in s` for strings. -/
def strContains (s pat : String) : Bool := occursIn pat.data s.data

/-- Python `s.lower()` (all keyword lists in the source are ASCII). -/
def lowerStr (s : String) : String := String.mk (s.data.map Char.toLower)

/-- Python `" ".join(xs)`. -/
def joinSpace : List String → String
  | [] => ""
  | [s] => s
  | s :: t :: rest => s ++ " " ++ joinSpace (t :: rest)

/-- Python regex `\s` character class. -/
def pySpaceB (c : Char) : Bool :=
  c == ' ' || c == '\t' || c == '\n' || c == '\r' || c == '\x0b' || c == '\x0c'

def isDigitB (c : Char) : Bool := c.isDigit

/-! Section: data model (the DocumentInfo shape consumed by classify_document) -/

structure Page where
  page_num : Nat
  text : String
deriving DecidableEq

structure DocInfo where
  pages : List Page
  num_pages : Nat
  num_images : Nat
deriving DecidableEq

/-! Section: backend/safety.py -/

def UNSAFE_KEYWORDS : List String :=
  ["child porn", "child pornography", "csam", "kill myself", "kill him",
   "kill her", "kill them", "shoot up", "school shooting", "mass shooting",
   "bomb recipe", "how to make a bomb", "how to build a bomb",
   "suicide tutorial", "suicide instructions", "rape", "lynch",
   "hang yourself", "behead"]

def PROFANITY_WORDS : List String :=
  ["fuck", "fucking", "fucked", "motherfucker", "shit", "bullshit", "bitch",
   "bitches", "asshole", "dickhead", "bastard", "Cunt"]

/-- Embeds `safety.naive_unsafe_check`: any of the fixed phrases occurs in the
lowercased single-space join of all page texts. -/
def naive_unsafe_check (pages : List Page) : Bool :=
  let text := lowerStr (joinSpace (pages.map Page.text))
  UNSAFE_KEYWORDS.any fun kw => strContains text kw

/-- Embeds `safety.profanity_pages`: page numbers whose lowercased text contains a
profanity word. -/
def profanity_pages (pages : List Page) : List Nat :=
  pages.filterMap fun p =>
    let text := lowerStr p.text
    if PROFANITY_WORDS.any (fun w => strContains text w) then some p.page_num else none

def SENSITIVE_EQUIPMENT_KEYWORDS : List String :=
  ["stealth", "fighter", "fighter jet", "fighter aircraft", "military aircraft",
   "stealth aircraft", "combat aircraft", "jet aircraft", "f-22", "f-35", "b-2"]

def PART_SERIAL_TERMS : List String :=
  ["serial", "serial no", "serial number", "part name", "part number",
   "component id", "component number", "tail number"]

/-- Embeds `safety.sensitive_equipment_pages`: pages (skipping empty text) containing
both an aircraft/equipment keyword and a serial/part term. -/
def sensitive_equipment_pages (pages : List Page) : List Nat :=
  pages.filterMap fun p =>
    let text := lowerStr p.text
    if text == "" then none
    else if (SENSITIVE_EQUIPMENT_KEYWORDS.any fun k => strContains text k) &&
            (PART_SERIAL_TERMS.any fun t => strContains text t) then
      some p.page_num
    else none

/-! Section: backend/pii_detection.py.

Hand-specialised matchers for the three regexes. Each matcher takes the
character preceding the candidate position (for `\b`) and the remaining text,
and returns the length of the match at that position, if any. -/

/-- Match of `\b\d{3}-\d{2}-\d{4}\b` at the head of `s`. -/
def ssnMatchLen (prev : Option Char) (s : List Char) : Option Nat :=
  match s with
  | d1 :: d2 :: d3 :: h1 :: d4 :: d5 :: h2 :: d6 :: d7 :: d8 :: d9 :: rest =>
    if isDigitB d1 && isDigitB d2 && isDigitB d3 && h1 == '-' &&
       isDigitB d4 && isDigitB d5 && h2 == '-' &&
       isDigitB d6 && isDigitB d7 && isDigitB d8 && isDigitB d9 &&
       boundB prev (some d1) && boundB (some d9) rest.head? then
      some 11
    else none
  | _ => none

def emailLocalB (c : Char) : Bool :=
  c.isAlphanum || c == '.' || c == '_' || c == '%' || c == '+' || c == '-'

def emailDomainB (c : Char) : Bool := c.isAlphanum || c == '.' || c == '-'

def alphaB (c : Char) : Bool := c.isAlpha

/-- Validity of splitting the domain run `d` at dot position `k` for
`\.[A-Za-z]{2,}\b` (`rest` follows the run `d` in the text). Only the maximal
alpha run after the dot can satisfy the trailing `\b`, since any shorter run
of length ≥ 2 is followed by a letter. -/
def emailTldOk (d : List Char) (k : Nat) (rest : List Char) : Bool :=
  let after := d.drop (k + 1)
  let a := after.takeWhile alphaB
  2 ≤ a.length &&
    (match after.drop a.length with
     | c :: _ => !wordCharB c
     | [] => !optWordB rest.head?)

/-- Match of `\b[A-Za-z0-9._%+-]+@[A-Za-z0-9.-]+\.[A-Za-z]{2,}\b` at the head of `s`.
The local-part run is forced (its class excludes `@`); the greedy
`[A-Za-z0-9.-]+` corresponds to choosing the rightmost workable dot. -/
def emailMatchLen (prev : Option Char) (s : List Char) : Option Nat :=
  let lcl := s.takeWhile emailLocalB
  if lcl.isEmpty then none
  else if !boundB prev s.head? then none
  else
    match s.drop lcl.length with
    | '@' :: s2 =>
      let d := s2.takeWhile emailDomainB
      let rest := s2.drop d.length
      let ks := (List.range d.length).filter fun k =>
        1 ≤ k && d.get? k == some '.' && emailTldOk d k rest
      match ks.max? with
      | some k => some (lcl.length + 1 + k + 1 + ((d.drop (k + 1)).takeWhile alphaB).length)
      | none => none
    | _ => none

/-- Consume exactly `n` digits. -/
def takeDigits : Nat → List Char → Option (List Char)
  | 0, s => some s
  | _ + 1, [] => none
  | n + 1, c :: s => if isDigitB c then takeDigits n s else none

def firstSome {α β : Type} (f : α → Option β) : List α → Option β
  | [] => none
  | a :: as =>
    match f a with
    | some b => some b
    | none => firstSome f as

/-- Continuations for `[-.\s]?` in backtracking preference order (consume first). -/
def sepOpts (s : List Char) : List (List Char) :=
  match s with
  | c :: rest => if c == '-' || c == '.' || pySpaceB c then [rest, s] else [s]
  | [] => [s]

/-- Match of `(?:\d{3}[-.\s]?){2}\d{4}\b`: first success in backtracking order;
returns the remaining text. -/
def phoneCore (s : List Char) : Option (List Char) :=
  (takeDigits 3 s).bind fun r1 =>
    firstSome (fun r1b =>
      (takeDigits 3 r1b).bind fun r2 =>
        firstSome (fun r2b =>
          (takeDigits 4 r2b).bind fun r3 =>
            if !optWordB r3.head? then some r3 else none)
          (sepOpts r2))
      (sepOpts r1)

/-- Continuations after the optional prefix `(?:\+?\d{1,3}[-.\s]?)?` in
backtracking preference order (group taken first, `+` consumed first, longer
digit runs first, separator consumed first, group skipped last). -/
def phonePrefixOpts (s : List Char) : List (List Char) :=
  let plusOpts : List (List Char) :=
    match s with
    | '+' :: r => [r, s]
    | _ => [s]
  (plusOpts.flatMap fun p =>
    ([3, 2, 1].filterMap fun n => takeDigits n p).flatMap sepOpts) ++ [s]

/-- Match of `\b(?:\+?\d{1,3}[-.\s]?)?(?:\d{3}[-.\s]?){2}\d{4}\b` at the head of `s`. -/
def phoneMatchLen (prev : Option Char) (s : List Char) : Option Nat :=
  if !boundB prev s.head? then none
  else (firstSome phoneCore (phonePrefixOpts s)).map fun rest => s.length - rest.length

/-- Embeds `re.finditer`: scan left to right, emit the leftmost match at each point,
continue after the matched span (non-overlapping). `prev` is the previous
character, `skip` the number of characters still inside the last match, `i`
the current index. -/
def finditerAux (m : Option Char → List Char → Option Nat) :
    Option Char → Nat → Nat → List Char → List (Nat × Nat)
  | _, _, _, [] => []
  | _, skip + 1, i, c :: rest => finditerAux m (some c) skip (i + 1) rest
  | prev, 0, i, c :: rest =>
    match m prev (c :: rest) with
    | some len => (i, len) :: finditerAux m (some c) (len - 1) (i + 1) rest
    | none => finditerAux m (some c) 0 (i + 1) rest

def finditer (m : Option Char → List Char → Option Nat) (text : List Char) :
    List (Nat × Nat) :=
  finditerAux m none 0 0 text

/-- Python slice `text[a:b]` (indices clamped). -/
def sliceStr (text : List Char) (a b : Nat) : String :=
  String.mk ((text.drop a).take (b - a))

inductive PiiType
  | ssn
  | email
  | phone
deriving DecidableEq

/-- Upper-cased type name, `f["type"].upper()` as used in the citation loop. -/
def PiiType.upperName : PiiType → String
  | .ssn => "SSN"
  | .email => "EMAIL"
  | .phone => "PHONE"

structure PiiFinding where
  type : PiiType
  page : Nat
  value : String
  snippet : String
  is_business : Bool := false
deriving DecidableEq

/-- One finding per regex match, with the ±20-character context snippet
(`text[max(0, start - 20) : end + 20]`). -/
def findingsFor (t : PiiType) (m : Option Char → List Char → Option Nat)
    (pnum : Nat) (text : String) : List PiiFinding :=
  (finditer m text.data).map fun sl =>
    { type := t
      page := pnum
      value := sliceStr text.data sl.1 (sl.1 + sl.2)
      snippet := sliceStr text.data (sl.1 - 20) (sl.1 + sl.2 + 20) }

/-- Embeds `pii_detection.find_pii`: per page, all SSN matches, then all email
matches, then all phone matches. -/
def find_pii (pages : List Page) : List PiiFinding :=
  pages.flatMap fun p =>
    findingsFor .ssn ssnMatchLen p.page_num p.text ++
    findingsFor .email emailMatchLen p.page_num p.text ++
    findingsFor .phone phoneMatchLen p.page_num p.text

/-! Section: gateway contract (backend/llm_client.py and run_llm_classification) -/

/-- Failure modes of `call_openrouter_chat`: missing `OPENROUTER_API_KEY`,
transport errors from `requests.post`, `raise_for_status` on non-2xx, and
JSON decode errors on the reply content. All are raised, never caught. -/
inductive GatewayError
  | missingApiKey
  | transportFailure (msg : String)
  | httpError (status : Nat)
  | invalidJson (msg : String)
deriving DecidableEq

structure Citation where
  page : Nat
  reason : String
deriving DecidableEq

/-- Normalised classification record (the dict built by
`run_llm_classification` and threaded through `classify_document`).
The Python key `unsafe` is called `isUnsafe` here (`unsafe` is a Lean
keyword). -/
structure LlmResult where
  category : String
  isUnsafe : Bool
  kid_safe : Bool
  confidence : ℚ
  reasoning : String
  citations : List Citation
deriving DecidableEq

/-- A parsed gateway JSON reply: each expected key is either present or
missing/of unusable type (`none`), exactly the cases the normalisation
distinguishes. -/
structure LlmRaw where
  category : Option String := none
  isUnsafe : Option Bool := none
  kid_safe : Option Bool := none
  confidence : Option ℚ := none
  reasoning : Option String := none
  citations : Option (List Citation) := none
deriving DecidableEq

/-- Kernel-reducible `min` on ℚ. -/
def qmin (a b : ℚ) : ℚ := if a ≤ b then a else b

/-- Kernel-reducible `max` on ℚ. -/
def qmax (a b : ℚ) : ℚ := if a ≤ b then b else a

/-- Embeds `classification.run_llm_classification` less the network call: defaulting
and clamping of the raw reply (`category` → "Public", `confidence` → 0.6
then clamped to [0,1], `kid_safe` → `not unsafe`, `reasoning` → placeholder,
`citations` → `[]`). -/
def run_llm_classification (raw : LlmRaw) : LlmResult :=
  let u := raw.isUnsafe.getD false
  { category := raw.category.getD "Public"
    isUnsafe := u
    kid_safe := raw.kid_safe.getD (!u)
    confidence := qmax 0 (qmin 1 (raw.confidence.getD (mkRat 6 10)))
    reasoning := raw.reasoning.getD "No reasoning provided."
    citations := raw.citations.getD [] }

/-! Section: classification.detect_policy_keywords -/

structure PolicyFlags where
  internal : Bool
  template : Bool
  equipment : Bool
deriving DecidableEq

/-- One `\b<phrase>\b` hit at the head position (all phrases in the source
start and end with word characters). -/
def phraseHitB (w : List Char) (prev : Option Char) (s : List Char) : Bool :=
  boundB prev w.head? && w.isPrefixOf s && boundB w.getLast? (s.drop w.length).head?

/-- Embeds `re.search` for a word-bounded alternation of fixed phrases. -/
def searchPhrases (ws : List (List Char)) : Option Char → List Char → Bool
  | prev, [] => ws.any fun w => phraseHitB w prev []
  | prev, c :: rest =>
    (ws.any fun w => phraseHitB w prev (c :: rest)) || searchPhrases ws (some c) rest

def INTERNAL_PHRASES : List String :=
  ["internal use", "restricted circulation", "proposal", "confidential memo", "research"]

def TEMPLATE_PHRASES : List String := ["template", "editable", "shared"]

/-- Alternatives `no\.|number|#` after `serial\s?`. -/
def serialTailB (s : List Char) : Bool :=
  "no.".data.isPrefixOf s || "number".data.isPrefixOf s || "#".data.isPrefixOf s

/-- One hit of `fighter|aircraft|drone|missile|f-\d+|serial\s?(no\.|number|#)`
at the head position (no word boundaries in this regex). -/
def equipmentHitB (s : List Char) : Bool :=
  "fighter".data.isPrefixOf s || "aircraft".data.isPrefixOf s ||
  "drone".data.isPrefixOf s || "missile".data.isPrefixOf s ||
  (match s with
   | 'f' :: '-' :: c :: _ => isDigitB c
   | _ => false) ||
  (if "serial".data.isPrefixOf s then
    serialTailB (s.drop 6) ||
      (match s.drop 6 with
       | c :: r2 => pySpaceB c && serialTailB r2
       | [] => false)
   else false)

def equipmentSearch : List Char → Bool
  | [] => false
  | c :: rest => equipmentHitB (c :: rest) || equipmentSearch rest

/-- Embeds `classification.detect_policy_keywords`: three regex flags over the
lowercased full text. -/
def detect_policy_keywords (text : String) : PolicyFlags :=
  let low := (lowerStr text).data
  { internal := searchPhrases (INTERNAL_PHRASES.map String.data) none low
    template := searchPhrases (TEMPLATE_PHRASES.map String.data) none low
    equipment := equipmentSearch low }

/-! Section: classification.classify_document -/

def VALIDATION_THRESHOLD : ℚ := mkRat 6 10

/-- Stage 5, disagreement resolution (`classify_document` lines 160–177):
if a validator result exists and disagrees on category or unsafe, its
category/unsafe/kid_safe become authoritative, confidence is capped by
`min(primary, validator, 0.7)`, the reasoning is synthesised from both, and
the citation lists are concatenated. -/
def resolve_validator (primary : LlmResult) (validator : Option LlmResult) : LlmResult :=
  match validator with
  | none => primary
  | some v =>
    if v.category ≠ primary.category ∨ v.isUnsafe ≠ primary.isUnsafe then
      { category := v.category
        isUnsafe := v.isUnsafe
        kid_safe := v.kid_safe
        confidence := qmin (qmin primary.confidence v.confidence) (mkRat 7 10)
        reasoning :=
          "Validator cross-check: 70B disagreed with 8B.\nPrimary said '" ++
          primary.category ++ "', validator said '" ++ v.category ++
          "'.\nValidator chosen for higher precision.\n\nPrimary reasoning: " ++
          primary.reasoning ++ "\n\nValidator reasoning: " ++ v.reasoning
        citations := primary.citations ++ v.citations }
    else primary

/-- Override 1 (lines 183–184): mark the category Unsafe when the merged
unsafe flag is set and "Unsafe" is not already a substring. -/
def apply_unsafe_override (unsafe_flag : Bool) (category : String) : String :=
  if unsafe_flag && !strContains category "Unsafe" then
    if category == "" then "Unsafe" else category ++ " and Unsafe"
  else category

/-- Override 2 (lines 187–189): SSN forces "Highly Sensitive" (keeping an
existing Unsafe marker) and raises confidence to at least 0.9 — but only when
"Highly Sensitive" is not already a substring of the category. -/
def apply_ssn_override (has_ssn : Bool) (category : String) (confidence : ℚ) :
    String × ℚ :=
  if has_ssn && !strContains category "Highly Sensitive" then
    ((if !strContains category "Unsafe" then "Highly Sensitive"
      else "Highly Sensitive and Unsafe"),
     qmax confidence (mkRat 9 10))
  else (category, confidence)

def MARKETING_KEYWORDS : List String :=
  ["brochure", "marketing", "customer story", "press release",
   "product portfolio", "case study", "advertisement"]

def TEMPLATE_CONTEXT_WORDS : List String := ["flight", "manual", "operations", "safety"]

/-- Which branch of the policy-overlay `if/elif` chain (lines 206–244) fires. -/
inductive PolicyBranch
  | internalB
  | equipmentB
  | templateB
  | fallbackB
  | noneB
deriving DecidableEq

/-- The `if/elif` chain of the policy overlay. Note that when the template
branch is selected but its inner flight/manual/operations/safety test fails,
no branch fires at all (the `elif` chain was already committed). -/
def policy_branch (policies : PolicyFlags) (is_marketing has_sens : Bool)
    (text_lower : String) : PolicyBranch :=
  if policies.internal then .internalB
  else if (has_sens || policies.equipment) && !is_marketing then .equipmentB
  else if policies.template && !is_marketing then
    (if TEMPLATE_CONTEXT_WORDS.any fun k => strContains text_lower k then .templateB
     else .noneB)
  else if has_sens then .fallbackB
  else .noneB

def POLICY_BLOCK_INTERNAL : String :=
  "\nPolicy rule: Detected internal or restricted-use document (e.g., memo/proposal). Classified as Confidential."

def POLICY_BLOCK_EQUIPMENT : String :=
  "\nPolicy rule: Contains identifiable aircraft or sensitive equipment serials. Classified as Confidential even if text appears public."

def POLICY_BLOCK_TEMPLATE : String :=
  "\nPolicy rule: Editable or shared operational template detected; classified as Confidential due to potential misuse."

def POLICY_BLOCK_FALLBACK : String :=
  "\nPolicy rule: Detected diagrams of military aircraft or sensitive equipment; classified as Confidential even if surrounding text is public-facing."

/-- The category/confidence/reasoning/citations state the policy overlay
transforms. -/
structure OverlayState where
  category : String
  confidence : ℚ
  reasoning : String
  citations : List Citation
deriving DecidableEq

/-- What each branch appends to the reasoning. -/
def policy_reasoning_suffix : PolicyBranch → String
  | .internalB => POLICY_BLOCK_INTERNAL
  | .equipmentB => POLICY_BLOCK_EQUIPMENT
  | .templateB => POLICY_BLOCK_TEMPLATE
  | .fallbackB => POLICY_BLOCK_FALLBACK
  | .noneB => ""

/-- Effect of the selected policy branch (lines 206–244). The fallback branch
changes the category only when it names neither "Confidential" nor
"Highly Sensitive", and adds no citation. -/
def apply_policy (br : PolicyBranch) (st : OverlayState) : OverlayState :=
  match br with
  | .internalB =>
    { category := "Confidential"
      confidence := qmax st.confidence (mkRat 85 100)
      reasoning := st.reasoning ++ POLICY_BLOCK_INTERNAL
      citations := st.citations ++ [⟨1, "Detected internal or restricted-use wording"⟩] }
  | .equipmentB =>
    { category := "Confidential"
      confidence := qmax st.confidence (mkRat 9 10)
      reasoning := st.reasoning ++ POLICY_BLOCK_EQUIPMENT
      citations := st.citations ++ [⟨1, "Detected aircraft/serial references"⟩] }
  | .templateB =>
    { category := "Confidential"
      confidence := qmax st.confidence (mkRat 85 100)
      reasoning := st.reasoning ++ POLICY_BLOCK_TEMPLATE
      citations := st.citations ++ [⟨1, "Detected shared editable operational template"⟩] }
  | .fallbackB =>
    { category :=
        if !strContains st.category "Confidential" &&
           !strContains st.category "Highly Sensitive" then "Confidential"
        else st.category
      confidence := qmax st.confidence (mkRat 8 10)
      reasoning := st.reasoning ++ POLICY_BLOCK_FALLBACK
      citations := st.citations }
  | .noneB => st

/-! Heuristic values derived from the document, named so that properties can
refer to them. -/

def full_text (doc : DocInfo) : String := joinSpace (doc.pages.map Page.text)

def has_sensitive_equipment (doc : DocInfo) : Bool :=
  !(sensitive_equipment_pages doc.pages).isEmpty && decide (0 < doc.num_images)

def is_marketing_or_public (text_lower : String) : Bool :=
  MARKETING_KEYWORDS.any fun kw => strContains text_lower kw

def doc_policy_branch (doc : DocInfo) : PolicyBranch :=
  policy_branch (detect_policy_keywords (full_text doc))
    (is_marketing_or_public (lowerStr (full_text doc)))
    (has_sensitive_equipment doc)
    (lowerStr (full_text doc))

/-- PII findings after the business-email filter (`find_pii` never sets
`is_business`, so the filter keeps everything; it is retained verbatim). -/
def doc_pii (doc : DocInfo) : List PiiFinding :=
  (find_pii doc.pages).filter fun f => !(f.type == PiiType.email && f.is_business)

def doc_has_ssn (doc : DocInfo) : Bool :=
  (doc_pii doc).any fun f => f.type == PiiType.ssn

/-- Everything in `classify_document` after the (at most two) gateway calls,
taking the stage-5 resolved result as input. -/
def classify_core (doc : DocInfo) (resolved : LlmResult) : LlmResult :=
  let pii_raw := find_pii doc.pages
  let pii := doc_pii doc
  let unsafe_flag := resolved.isUnsafe || naive_unsafe_check doc.pages
  let prof_pages := profanity_pages doc.pages
  let category1 := apply_unsafe_override unsafe_flag resolved.category
  let cc := apply_ssn_override (doc_has_ssn doc) category1 resolved.confidence
  let st := apply_policy (doc_policy_branch doc)
    { category := cc.1, confidence := cc.2,
      reasoning := resolved.reasoning, citations := resolved.citations }
  let citations := st.citations ++
    (pii.map fun f => ⟨f.page, "Detected " ++ f.type.upperName ++ ": " ++ f.value⟩) ++
    (prof_pages.map fun pnum => ⟨pnum, "Strong profanity detected (not kid-safe)."⟩)
  let kid_safe0 := !unsafe_flag && prof_pages.isEmpty
  let kid_safe_final := if has_sensitive_equipment doc && kid_safe0 then true else kid_safe0
  let reasoning :=
    if !unsafe_flag && pii_raw.any (fun f => f.is_business) then
      st.reasoning ++ "\nNote: Detected only public business contact info — does not increase sensitivity."
    else st.reasoning
  { category := st.category
    isUnsafe := unsafe_flag
    kid_safe := kid_safe_final
    confidence := st.confidence
    reasoning := reasoning.trim
    citations := citations }

/-- Stages 3–5: normalise the primary reply, call the validator only when the
primary confidence is below the threshold, resolve disagreement. -/
def resolved_of (praw vraw : LlmRaw) : LlmResult :=
  let primary := run_llm_classification praw
  resolve_validator primary
    (if primary.confidence < VALIDATION_THRESHOLD then
      some (run_llm_classification vraw)
     else none)

/-- Embeds `classification.classify_document` as a function of the document and the
two (at most) gateway replies. -/
def classify_document (doc : DocInfo) (praw vraw : LlmRaw) : LlmResult :=
  classify_core doc (resolved_of praw vraw)

/-- Variant of `classify_document` with the gateway's failure modes made explicit: each
gateway call either yields a parsed JSON reply or raises. No exception is
caught anywhere in `classify_document`, so a failure of either call aborts
the whole classification. -/
def classify_documentE (doc : DocInfo)
    (gwPrimary gwValidator : Except GatewayError LlmRaw) :
    Except GatewayError LlmResult :=
  match gwPrimary with
  | .error e => .error e
  | .ok praw =>
    let primary := run_llm_classification praw
    if primary.confidence < VALIDATION_THRESHOLD then
      match gwValidator with
      | .error e => .error e
      | .ok vraw =>
        .ok (classify_core doc (resolve_validator primary (some (run_llm_classification vraw))))
    else .ok (classify_core doc (resolve_validator primary none))

/-! Section: vocabulary for the properties -/

def BASE_LABELS : List String := ["Public", "Confidential", "Highly Sensitive", "Unsafe"]

/-- A base label or a compound `<base> and Unsafe` form. -/
def isAllowedCategory (s : String) : Bool :=
  BASE_LABELS.contains s || BASE_LABELS.any fun a => s == a ++ " and Unsafe"

/-- The seven category strings reachable from base-label gateway replies. -/
def CAT7 : List String :=
  BASE_LABELS ++ ["Public and Unsafe", "Confidential and Unsafe", "Highly Sensitive and Unsafe"]

/-- How many of the three forced-Confidential reasoning blocks occur in `s`. -/
def countPolicyBlocks (s : String) : Nat :=
  (if strContains s POLICY_BLOCK_INTERNAL then 1 else 0) +
  (if strContains s POLICY_BLOCK_EQUIPMENT then 1 else 0) +
  (if strContains s POLICY_BLOCK_TEMPLATE then 1 else 0)

/-- The merged unsafe flag (LLM after resolution, or the keyword heuristic). -/
def doc_unsafe_flag (doc : DocInfo) (praw vraw : LlmRaw) : Bool :=
  (resolved_of praw vraw).isUnsafe || naive_unsafe_check doc.pages

/-- The category entering the SSN override (after the unsafe override). -/
def pre_ssn_category (doc : DocInfo) (praw vraw : LlmRaw) : String :=
  apply_unsafe_override (doc_unsafe_flag doc praw vraw) (resolved_of praw vraw).category

/-- The overlay state entering the policy stage (after the unsafe and SSN
overrides), definitionally the state built inside `classify_core`. -/
def overlay_input (doc : DocInfo) (praw vraw : LlmRaw) : OverlayState :=
  { category := (apply_ssn_override (doc_has_ssn doc) (pre_ssn_category doc praw vraw)
      (resolved_of praw vraw).confidence).1
    confidence := (apply_ssn_override (doc_has_ssn doc) (pre_ssn_category doc praw vraw)
      (resolved_of praw vraw).confidence).2
    reasoning := (resolved_of praw vraw).reasoning
    citations := (resolved_of praw vraw).citations }

/-- The overlay state after the policy stage. -/
def overlay_output (doc : DocInfo) (praw vraw : LlmRaw) : OverlayState :=
  apply_policy (doc_policy_branch doc) (overlay_input doc praw vraw)

/-! Section: concrete documents and gateway replies used in counterexamples
and witnesses. -/

/-- An all-default gateway reply (every key missing). -/
def noRaw : LlmRaw := {}

def c1ce_doc : DocInfo := ⟨[⟨1, "rape internal use"⟩], 1, 0⟩

def c1ce_praw : LlmRaw :=
  { category := some "Public", isUnsafe := some false, confidence := some 1 }

def c1w_doc : DocInfo := ⟨[⟨1, "rape"⟩], 1, 0⟩

def c1w_praw : LlmRaw := { category := some "Public", confidence := some 1 }

def c2ce_doc : DocInfo := ⟨[⟨1, "123-45-6789 internal use"⟩], 1, 0⟩

def c2ce_praw : LlmRaw :=
  { category := some "Highly Sensitive", isUnsafe := some false,
    confidence := some (mkRat 7 10) }

def c2w_doc : DocInfo := ⟨[⟨1, "123-45-6789"⟩], 1, 0⟩

def c2w_praw : LlmRaw := { category := some "Public", confidence := some 1 }

def c3w_praw : LlmRaw :=
  { category := some "Public", confidence := some (mkRat 4 10),
    reasoning := some "primary rationale text" }

def c3w_vraw : LlmRaw :=
  { category := some "Confidential", confidence := some 1,
    reasoning := some "validator rationale text",
    citations := some [⟨2, "validator citation"⟩] }

def c4ce_doc : DocInfo := ⟨[⟨1, ""⟩], 1, 0⟩

def c4ce_praw : LlmRaw := { category := some "Foo", confidence := some 1 }

def c4w_praw : LlmRaw := { category := some "Public", confidence := some 1 }

def c6w_doc : DocInfo := ⟨[⟨1, "f-22 serial number brochure"⟩], 1, 1⟩

def c9w_doc : DocInfo := ⟨[⟨1, ""⟩], 1, 0⟩

def c9w_praw : LlmRaw := { confidence := some (mkRat 1 2) }

/-! Section: lemmas about the string machinery -/

theorem occursIn_iff (pat s : List Char) : occursIn pat s = true ↔ pat <:+: s := by
  induction s with
  | nil => simp [occursIn, List.isPrefixOf_iff_prefix]
  | cons c rest ih =>
    simp [occursIn, List.isPrefixOf_iff_prefix, ih, List.infix_cons_iff]

theorem strContains_iff (s pat : String) :
    strContains s pat = true ↔ pat.data <:+: s.data :=
  occursIn_iff pat.data s.data

theorem strData_append (s t : String) : (s ++ t).data = s.data ++ t.data := by
  cases s; cases t; rfl

theorem strContains_append_left (s t m : String) (h : strContains s m = true) :
    strContains (s ++ t) m = true := by
  rw [strContains_iff] at h ⊢
  rw [strData_append]
  obtain ⟨a, b, hab⟩ := h
  exact ⟨a, b ++ t.data, by rw [← hab]; simp⟩

theorem strContains_append_right (s t m : String) (h : strContains t m = true) :
    strContains (s ++ t) m = true := by
  rw [strContains_iff] at h ⊢
  rw [strData_append]
  obtain ⟨a, b, hab⟩ := h
  exact ⟨s.data ++ a, b, by rw [← hab]; simp⟩

theorem strContains_self (m : String) : strContains m m = true :=
  (strContains_iff m m).mpr (List.infix_refl m.data)

theorem str_append_empty (s : String) : s ++ "" = s := by
  cases s with
  | mk d =>
    show String.mk (d ++ []) = String.mk d
    rw [List.append_nil]

/-! Section: lemmas about qmin and qmax -/

theorem le_qmax_left (a b : ℚ) : a ≤ qmax a b := by
  unfold qmax; split
  · assumption
  · exact le_refl a

theorem le_qmax_right (a b : ℚ) : b ≤ qmax a b := by
  unfold qmax; split
  · exact le_refl b
  · next h => exact le_of_not_le h

/-! Section: lemmas about the override and policy stages -/

theorem apply_policy_conf_le (br : PolicyBranch) (st : OverlayState) :
    st.confidence ≤ (apply_policy br st).confidence := by
  cases br
  · exact le_qmax_left _ _
  · exact le_qmax_left _ _
  · exact le_qmax_left _ _
  · exact le_qmax_left _ _
  · exact le_refl _

theorem apply_ssn_conf_le (hs : Bool) (cat : String) (q : ℚ) :
    q ≤ (apply_ssn_override hs cat q).2 := by
  unfold apply_ssn_override; split
  · exact le_qmax_left _ _
  · exact le_refl _

theorem ssn_preserves_unsafe_mark (hs : Bool) (cat : String) (q : ℚ) :
    strContains (apply_ssn_override hs cat q).1 "Unsafe" = strContains cat "Unsafe" := by
  unfold apply_ssn_override
  split
  · show strContains (if !strContains cat "Unsafe" then "Highly Sensitive"
        else "Highly Sensitive and Unsafe") "Unsafe" = strContains cat "Unsafe"
    cases h : strContains cat "Unsafe" <;> simp [h] <;> decide
  · rfl

theorem unsafe_override_eq (uf : Bool) (cat : String)
    (h : strContains cat "Unsafe" = false) :
    strContains (apply_unsafe_override uf cat) "Unsafe" = uf := by
  unfold apply_unsafe_override
  cases uf
  · simp [h]
  · simp [h]
    split
    · decide
    · exact strContains_append_right _ _ _ (by decide)

theorem ssn_forces_hs (cat : String) (q : ℚ) :
    strContains (apply_ssn_override true cat q).1 "Highly Sensitive" = true := by
  unfold apply_ssn_override
  cases h : strContains cat "Highly Sensitive"
  · simp [h]
    split <;> decide
  · simp [h]

theorem ssn_conf_ge_of_not_hs (cat : String) (q : ℚ)
    (h : strContains cat "Highly Sensitive" = false) :
    mkRat 9 10 ≤ (apply_ssn_override true cat q).2 := by
  unfold apply_ssn_override
  simp [h]
  exact le_qmax_right _ _

theorem fallback_keeps_hs (st : OverlayState)
    (h : strContains st.category "Highly Sensitive" = true) :
    (apply_policy PolicyBranch.fallbackB st).category = st.category := by
  show (if !strContains st.category "Confidential" &&
          !strContains st.category "Highly Sensitive"
        then "Confidential" else st.category) = st.category
  simp [h]

/-! Section: projection lemmas tying `classify_document` to its stages -/

theorem classify_category_eq (doc : DocInfo) (praw vraw : LlmRaw) :
    (classify_document doc praw vraw).category = (overlay_output doc praw vraw).category := rfl

theorem classify_confidence_eq (doc : DocInfo) (praw vraw : LlmRaw) :
    (classify_document doc praw vraw).confidence = (overlay_output doc praw vraw).confidence := rfl

theorem classify_isUnsafe_eq (doc : DocInfo) (praw vraw : LlmRaw) :
    (classify_document doc praw vraw).isUnsafe = doc_unsafe_flag doc praw vraw := rfl

theorem unsafe_override_mem (uf : Bool) (cat : String) (h : cat ∈ BASE_LABELS) :
    apply_unsafe_override uf cat ∈ CAT7 := by
  fin_cases h <;> cases uf <;> decide

theorem ssn_override_mem (hs : Bool) (cat : String) (q : ℚ) (h : cat ∈ CAT7) :
    (apply_ssn_override hs cat q).1 ∈ CAT7 := by
  unfold apply_ssn_override
  split
  · show (if !strContains cat "Unsafe" then "Highly Sensitive"
        else "Highly Sensitive and Unsafe") ∈ CAT7
    split <;> decide
  · exact h

theorem policy_mem (br : PolicyBranch) (st : OverlayState) (h : st.category ∈ CAT7) :
    (apply_policy br st).category ∈ CAT7 := by
  cases br
  · show "Confidential" ∈ CAT7; decide
  · show "Confidential" ∈ CAT7; decide
  · show "Confidential" ∈ CAT7; decide
  · show (if !strContains st.category "Confidential" &&
            !strContains st.category "Highly Sensitive"
          then "Confidential" else st.category) ∈ CAT7
    split
    · decide
    · exact h
  · exact h

theorem allowed_of_cat7 (s : String) (h : s ∈ CAT7) : isAllowedCategory s = true := by
  fin_cases h <;> decide

theorem resolved_cat_mem (praw vraw : LlmRaw)
    (hp : (run_llm_classification praw).category ∈ BASE_LABELS)
    (hv : (run_llm_classification vraw).category ∈ BASE_LABELS) :
    (resolved_of praw vraw).category ∈ BASE_LABELS := by
  simp only [resolved_of]
  split
  · simp only [resolve_validator]
    split
    · exact hv
    · exact hp
  · exact hp

/-! Section: claim theorems -/

/-- C8: for every document and every pair of gateway responses, the
confidence returned by `classify_document` is at least the confidence
entering the deterministic override stages (the stage-5 resolved confidence,
i.e. the primary confidence or `min(primary, validator, 0.7)` after a
validator disagreement): every override stage only raises confidence. -/
theorem c8_confidence_monotone (doc : DocInfo) (praw vraw : LlmRaw) :
    (resolved_of praw vraw).confidence ≤ (classify_document doc praw vraw).confidence := by
  rw [classify_confidence_eq]
  calc (resolved_of praw vraw).confidence
      ≤ (overlay_input doc praw vraw).confidence :=
        apply_ssn_conf_le (doc_has_ssn doc) (pre_ssn_category doc praw vraw)
          (resolved_of praw vraw).confidence
    _ ≤ (overlay_output doc praw vraw).confidence :=
        apply_policy_conf_le (doc_policy_branch doc) (overlay_input doc praw vraw)

/-- Auxiliary Boolean fact for the kid-safe normalisation lines 255–256:
the re-assignment is the identity. -/
theorem kid_safe_reassign (a k : Bool) : (if (a && k) = true then true else k) = k := by
  cases a <;> cases k <;> rfl

/-- C7: for every document and every pair of gateway responses, the returned
`kid_safe` equals `not unsafe && no profanity page`, where the returned
`unsafe` is the disjunction of the resolved LLM flag and the keyword
heuristic; equipment detection does not occur in either equation. -/
theorem c7_kid_safe (doc : DocInfo) (praw vraw : LlmRaw) :
    (classify_document doc praw vraw).kid_safe =
      (!(classify_document doc praw vraw).isUnsafe &&
        (profanity_pages doc.pages).isEmpty) ∧
    (classify_document doc praw vraw).isUnsafe =
      ((resolved_of praw vraw).isUnsafe || naive_unsafe_check doc.pages) := by
  constructor
  · have h1 : (classify_document doc praw vraw).kid_safe =
        (if (has_sensitive_equipment doc &&
              (!(doc_unsafe_flag doc praw vraw) && (profanity_pages doc.pages).isEmpty)) = true
         then true
         else (!(doc_unsafe_flag doc praw vraw) && (profanity_pages doc.pages).isEmpty)) := rfl
    rw [h1, classify_isUnsafe_eq, kid_safe_reassign]
  · exact classify_isUnsafe_eq doc praw vraw

/-- C5: the policy overlay appends at most one of the three
forced-Confidential reasoning blocks per invocation: the reasoning after the
overlay is the reasoning before it followed by the selected branch's suffix,
and that suffix contains at most one of the three blocks. -/
theorem c5_policy_blocks (br : PolicyBranch) (st : OverlayState) :
    (apply_policy br st).reasoning = st.reasoning ++ policy_reasoning_suffix br ∧
    countPolicyBlocks (policy_reasoning_suffix br) ≤ 1 := by
  cases br
  · exact ⟨rfl, by decide⟩
  · exact ⟨rfl, by decide⟩
  · exact ⟨rfl, by decide⟩
  · exact ⟨rfl, by decide⟩
  · exact ⟨(str_append_empty st.reasoning).symm, by decide⟩

/-- C4 counterexample: a gateway reply whose category is the arbitrary
string "Foo" (with high confidence, over a blank document) flows through to
the final result unchanged, which is neither a base label nor a compound
form. -/
theorem c4_counterexample :
    (classify_document c4ce_doc c4ce_praw noRaw).category = "Foo" ∧
    isAllowedCategory (classify_document c4ce_doc c4ce_praw noRaw).category = false := by
  decide

/-- C4 amended: when both gateway replies carry one of the four base labels
as category, the final category is one of the four base labels or a
compound base-label-and-Unsafe form. -/
theorem c4_amended (doc : DocInfo) (praw vraw : LlmRaw)
    (hp : (run_llm_classification praw).category ∈ BASE_LABELS)
    (hv : (run_llm_classification vraw).category ∈ BASE_LABELS) :
    isAllowedCategory (classify_document doc praw vraw).category = true := by
  have h0 : (resolved_of praw vraw).category ∈ BASE_LABELS :=
    resolved_cat_mem praw vraw hp hv
  have h1 : pre_ssn_category doc praw vraw ∈ CAT7 :=
    unsafe_override_mem (doc_unsafe_flag doc praw vraw) _ h0
  have h2 : (overlay_input doc praw vraw).category ∈ CAT7 :=
    ssn_override_mem (doc_has_ssn doc) (pre_ssn_category doc praw vraw)
      (resolved_of praw vraw).confidence h1
  have h3 : (overlay_output doc praw vraw).category ∈ CAT7 :=
    policy_mem (doc_policy_branch doc) (overlay_input doc praw vraw) h2
  rw [classify_category_eq]
  exact allowed_of_cat7 _ h3

/-- C4 witness for the amended statement: base-label replies over a blank
document give an allowed category. -/
theorem c4_amended_witness :
    (run_llm_classification c4w_praw).category ∈ BASE_LABELS ∧
    (run_llm_classification noRaw).category ∈ BASE_LABELS ∧
    isAllowedCategory (classify_document c4ce_doc c4w_praw noRaw).category = true :=
  ⟨by decide, by decide, c4_amended c4ce_doc c4w_praw noRaw (by decide) (by decide)⟩

/-- C1 counterexample: a document whose text is "rape internal use" (keyword
heuristic sets unsafe; the internal-wording policy branch then overwrites
"Public and Unsafe" with "Confidential"): the final result has `unsafe = true`
while the category does not contain "Unsafe", refuting the claimed iff. -/
theorem c1_counterexample :
    (classify_document c1ce_doc c1ce_praw noRaw).isUnsafe = true ∧
    strContains (classify_document c1ce_doc c1ce_praw noRaw).category "Unsafe" = false := by
  decide

/-- C1 amended: the iff does hold provided the category produced by the
disagreement-resolution stage does not already contain "Unsafe" and no policy
branch fires: then the final category contains "Unsafe" exactly when the
returned unsafe flag is true. -/
theorem c1_amended (doc : DocInfo) (praw vraw : LlmRaw)
    (hcat : strContains (resolved_of praw vraw).category "Unsafe" = false)
    (hbr : doc_policy_branch doc = PolicyBranch.noneB) :
    strContains (classify_document doc praw vraw).category "Unsafe" =
      (classify_document doc praw vraw).isUnsafe := by
  rw [classify_category_eq, classify_isUnsafe_eq]
  have h1 : (overlay_output doc praw vraw).category = (overlay_input doc praw vraw).category := by
    unfold overlay_output
    rw [hbr]
    rfl
  rw [h1]
  have h2 : strContains (overlay_input doc praw vraw).category "Unsafe" =
      strContains (pre_ssn_category doc praw vraw) "Unsafe" :=
    ssn_preserves_unsafe_mark (doc_has_ssn doc) (pre_ssn_category doc praw vraw)
      (resolved_of praw vraw).confidence
  rw [h2]
  exact unsafe_override_eq (doc_unsafe_flag doc praw vraw) (resolved_of praw vraw).category hcat

/-- C1 witness for the amended statement: document "rape" (heuristically
unsafe, no policy branch) with a clean "Public" reply satisfies both
hypotheses, and the final category "Public and Unsafe" matches the flag. -/
theorem c1_amended_witness :
    strContains (resolved_of c1w_praw noRaw).category "Unsafe" = false ∧
    doc_policy_branch c1w_doc = PolicyBranch.noneB ∧
    strContains (classify_document c1w_doc c1w_praw noRaw).category "Unsafe" =
      (classify_document c1w_doc c1w_praw noRaw).isUnsafe :=
  ⟨by decide, by decide, c1_amended c1w_doc c1w_praw noRaw (by decide) (by decide)⟩

/-- C2 counterexample: the document "123-45-6789 internal use" contains an
SSN, but with a primary reply already labelled "Highly Sensitive" at
confidence 0.7 the SSN override is skipped (so confidence is never raised to
0.9) and the internal-wording branch then forces the category to
"Confidential", which does not contain "Highly Sensitive". -/
theorem c2_counterexample :
    doc_has_ssn c2ce_doc = true ∧
    strContains (classify_document c2ce_doc c2ce_praw noRaw).category "Highly Sensitive" = false ∧
    (classify_document c2ce_doc c2ce_praw noRaw).confidence < mkRat 9 10 := by
  decide

/-- C2 amended: for every document whose pages contain a word-bounded SSN
match, (a) if no forced-Confidential policy branch fires (the selected branch
is the no-op or the equipment fallback), the final category contains
"Highly Sensitive"; and (b) if the category reaching the SSN override does
not already contain "Highly Sensitive", the final confidence is at least
0.9. -/
theorem c2_amended (doc : DocInfo) (praw vraw : LlmRaw)
    (hssn : doc_has_ssn doc = true) :
    ((doc_policy_branch doc = PolicyBranch.noneB ∨
      doc_policy_branch doc = PolicyBranch.fallbackB) →
      strContains (classify_document doc praw vraw).category "Highly Sensitive" = true) ∧
    (strContains (pre_ssn_category doc praw vraw) "Highly Sensitive" = false →
      mkRat 9 10 ≤ (classify_document doc praw vraw).confidence) := by
  have hin : strContains (overlay_input doc praw vraw).category "Highly Sensitive" = true := by
    show strContains (apply_ssn_override (doc_has_ssn doc) (pre_ssn_category doc praw vraw)
        (resolved_of praw vraw).confidence).1 "Highly Sensitive" = true
    rw [hssn]
    exact ssn_forces_hs (pre_ssn_category doc praw vraw) (resolved_of praw vraw).confidence
  constructor
  · intro hbr
    rw [classify_category_eq]
    unfold overlay_output
    rcases hbr with hbr | hbr
    · rw [hbr]
      exact hin
    · rw [hbr]
      rw [fallback_keeps_hs (overlay_input doc praw vraw) hin]
      exact hin
  · intro hns
    rw [classify_confidence_eq]
    have h9 : mkRat 9 10 ≤ (overlay_input doc praw vraw).confidence := by
      show mkRat 9 10 ≤ (apply_ssn_override (doc_has_ssn doc) (pre_ssn_category doc praw vraw)
          (resolved_of praw vraw).confidence).2
      rw [hssn]
      exact ssn_conf_ge_of_not_hs (pre_ssn_category doc praw vraw)
        (resolved_of praw vraw).confidence hns
    exact le_trans h9 (apply_policy_conf_le (doc_policy_branch doc) (overlay_input doc praw vraw))

/-- C2 witness for the amended statement: the one-page document
"123-45-6789" with a plain "Public" reply satisfies the hypotheses; the final
category is "Highly Sensitive" with confidence at least 0.9. -/
theorem c2_amended_witness :
    doc_has_ssn c2w_doc = true ∧
    strContains (classify_document c2w_doc c2w_praw noRaw).category "Highly Sensitive" = true ∧
    mkRat 9 10 ≤ (classify_document c2w_doc c2w_praw noRaw).confidence :=
  ⟨by decide,
   (c2_amended c2w_doc c2w_praw noRaw (by decide)).1 (Or.inl (by decide)),
   (c2_amended c2w_doc c2w_praw noRaw (by decide)).2 (by decide)⟩

/-- C3: when the validator is invoked (primary confidence below 0.6) and its
category or unsafe flag differs from the primary's, the state at the end of
the disagreement-resolution stage has the validator's category, unsafe and
kid_safe; its confidence is `min(min(primary, validator), 0.7)`; its
reasoning contains both proposed categories and both original reasoning
strings; and its citations are the primary's followed by the validator's
with no deduplication. -/
theorem c3_validator_disagreement (praw vraw : LlmRaw)
    (hconf : (run_llm_classification praw).confidence < VALIDATION_THRESHOLD)
    (hdis : (run_llm_classification vraw).category ≠ (run_llm_classification praw).category ∨
            (run_llm_classification vraw).isUnsafe ≠ (run_llm_classification praw).isUnsafe) :
    (resolved_of praw vraw).category = (run_llm_classification vraw).category ∧
    (resolved_of praw vraw).isUnsafe = (run_llm_classification vraw).isUnsafe ∧
    (resolved_of praw vraw).kid_safe = (run_llm_classification vraw).kid_safe ∧
    (resolved_of praw vraw).confidence =
      qmin (qmin (run_llm_classification praw).confidence
        (run_llm_classification vraw).confidence) (mkRat 7 10) ∧
    strContains (resolved_of praw vraw).reasoning
      (run_llm_classification praw).category = true ∧
    strContains (resolved_of praw vraw).reasoning
      (run_llm_classification vraw).category = true ∧
    strContains (resolved_of praw vraw).reasoning
      (run_llm_classification praw).reasoning = true ∧
    strContains (resolved_of praw vraw).reasoning
      (run_llm_classification vraw).reasoning = true ∧
    (resolved_of praw vraw).citations =
      (run_llm_classification praw).citations ++ (run_llm_classification vraw).citations := by
  have hr : resolved_of praw vraw =
      { category := (run_llm_classification vraw).category
        isUnsafe := (run_llm_classification vraw).isUnsafe
        kid_safe := (run_llm_classification vraw).kid_safe
        confidence := qmin (qmin (run_llm_classification praw).confidence
          (run_llm_classification vraw).confidence) (mkRat 7 10)
        reasoning := "Validator cross-check: 70B disagreed with 8B.\nPrimary said '" ++
          (run_llm_classification praw).category ++ "', validator said '" ++
          (run_llm_classification vraw).category ++
          "'.\nValidator chosen for higher precision.\n\nPrimary reasoning: " ++
          (run_llm_classification praw).reasoning ++ "\n\nValidator reasoning: " ++
          (run_llm_classification vraw).reasoning
        citations := (run_llm_classification praw).citations ++
          (run_llm_classification vraw).citations } := by
    simp only [resolved_of]
    rw [if_pos hconf]
    simp only [resolve_validator]
    rw [if_pos hdis]
  rw [hr]
  refine ⟨rfl, rfl, rfl, rfl, ?_, ?_, ?_, ?_, rfl⟩
  · exact strContains_append_left _ _ _ (strContains_append_left _ _ _
      (strContains_append_left _ _ _ (strContains_append_left _ _ _
        (strContains_append_left _ _ _ (strContains_append_left _ _ _
          (strContains_append_right _ _ _ (strContains_self _)))))))
  · exact strContains_append_left _ _ _ (strContains_append_left _ _ _
      (strContains_append_left _ _ _ (strContains_append_left _ _ _
        (strContains_append_right _ _ _ (strContains_self _)))))
  · exact strContains_append_left _ _ _ (strContains_append_left _ _ _
      (strContains_append_right _ _ _ (strContains_self _)))
  · exact strContains_append_right _ _ _ (strContains_self _)

/-- C3 witness: a primary reply at confidence 0.4 and a validator reply with
a different category; the resolved stage output takes the validator's
category and the capped confidence, and its reasoning quotes both replies. -/
theorem c3_witness :
    (run_llm_classification c3w_praw).confidence < VALIDATION_THRESHOLD ∧
    (resolved_of c3w_praw c3w_vraw).category = (run_llm_classification c3w_vraw).category ∧
    (resolved_of c3w_praw c3w_vraw).confidence =
      qmin (qmin (run_llm_classification c3w_praw).confidence
        (run_llm_classification c3w_vraw).confidence) (mkRat 7 10) ∧
    strContains (resolved_of c3w_praw c3w_vraw).reasoning
      (run_llm_classification c3w_praw).reasoning = true ∧
    (resolved_of c3w_praw c3w_vraw).citations =
      (run_llm_classification c3w_praw).citations ++
        (run_llm_classification c3w_vraw).citations :=
  ⟨by decide,
   (c3_validator_disagreement c3w_praw c3w_vraw (by decide) (Or.inl (by decide))).1,
   (c3_validator_disagreement c3w_praw c3w_vraw (by decide) (Or.inl (by decide))).2.2.2.1,
   (c3_validator_disagreement c3w_praw c3w_vraw (by decide) (Or.inl (by decide))).2.2.2.2.2.2.1,
   (c3_validator_disagreement c3w_praw c3w_vraw (by decide) (Or.inl (by decide))).2.2.2.2.2.2.2.2⟩

/-- C6: when the full document text contains a marketing phrase, the
equipment and template policy branches never fire while the internal branch
is unaffected (it fires exactly when the internal-wording regex hits); if
additionally `has_sensitive_equipment` holds and the internal branch did not
fire, the fallback branch is selected, and the fallback branch forces
"Confidential" only when the current category names neither "Confidential"
nor "Highly Sensitive", raises confidence to `max(confidence, 0.8)` (hence at
least 0.8), appends its reasoning block, and adds no citation. -/
theorem c6_marketing_guard (doc : DocInfo)
    (hm : is_marketing_or_public (lowerStr (full_text doc)) = true) :
    (doc_policy_branch doc ≠ PolicyBranch.equipmentB ∧
     doc_policy_branch doc ≠ PolicyBranch.templateB) ∧
    (doc_policy_branch doc = PolicyBranch.internalB ↔
      (detect_policy_keywords (full_text doc)).internal = true) ∧
    ((detect_policy_keywords (full_text doc)).internal = false →
      has_sensitive_equipment doc = true →
      doc_policy_branch doc = PolicyBranch.fallbackB) ∧
    (∀ st : OverlayState,
      (strContains st.category "Confidential" = false ∧
       strContains st.category "Highly Sensitive" = false →
        (apply_policy PolicyBranch.fallbackB st).category = "Confidential") ∧
      (strContains st.category "Confidential" = true ∨
       strContains st.category "Highly Sensitive" = true →
        (apply_policy PolicyBranch.fallbackB st).category = st.category) ∧
      (apply_policy PolicyBranch.fallbackB st).confidence = qmax st.confidence (mkRat 8 10) ∧
      mkRat 8 10 ≤ (apply_policy PolicyBranch.fallbackB st).confidence ∧
      (apply_policy PolicyBranch.fallbackB st).reasoning =
        st.reasoning ++ POLICY_BLOCK_FALLBACK ∧
      (apply_policy PolicyBranch.fallbackB st).citations = st.citations) := by
  have hb : doc_policy_branch doc =
      (if (detect_policy_keywords (full_text doc)).internal = true then PolicyBranch.internalB
       else if has_sensitive_equipment doc = true then PolicyBranch.fallbackB
       else PolicyBranch.noneB) := by
    unfold doc_policy_branch policy_branch
    rw [hm]
    simp
  refine ⟨⟨?_, ?_⟩, ?_, ?_, ?_⟩
  · rw [hb]
    split
    · simp
    · split <;> simp
  · rw [hb]
    split
    · simp
    · split <;> simp
  · rw [hb]
    cases hI : (detect_policy_keywords (full_text doc)).internal
    · simp only [hI, Bool.false_eq_true, if_false]
      split <;> simp
    · simp [hI]
  · intro h1 h2
    rw [hb]
    simp [h1, h2]
  · intro st
    refine ⟨?_, ?_, rfl, le_qmax_right st.confidence (mkRat 8 10), rfl, rfl⟩
    · intro h
      show (if !strContains st.category "Confidential" &&
              !strContains st.category "Highly Sensitive"
            then "Confidential" else st.category) = "Confidential"
      simp [h.1, h.2]
    · intro h
      show (if !strContains st.category "Confidential" &&
              !strContains st.category "Highly Sensitive"
            then "Confidential" else st.category) = st.category
      rcases h with h | h <;> simp [h]

/-- C6 witness: a one-image document reading "f-22 serial number brochure":
the marketing phrase suppresses the equipment branch, the internal regex
does not hit, and the fallback branch is selected. -/
theorem c6_marketing_guard_witness :
    is_marketing_or_public (lowerStr (full_text c6w_doc)) = true ∧
    has_sensitive_equipment c6w_doc = true ∧
    doc_policy_branch c6w_doc = PolicyBranch.fallbackB ∧
    doc_policy_branch c6w_doc ≠ PolicyBranch.equipmentB :=
  ⟨by decide, by decide,
   (c6_marketing_guard c6w_doc (by decide)).2.2.1 (by decide) (by decide),
   (c6_marketing_guard c6w_doc (by decide)).1.1⟩

/-- C9: a failing primary gateway call makes the whole classification fail
with that error; a failing validator call (invoked because the primary
confidence is below 0.6) likewise; and when both calls succeed the result is
exactly the total `classify_document` — all-or-nothing, no partial result. -/
theorem c9_gateway_failure_propagation (doc : DocInfo) :
    (∀ (e : GatewayError) (gwV : Except GatewayError LlmRaw),
      classify_documentE doc (Except.error e) gwV = Except.error e) ∧
    (∀ (praw : LlmRaw) (e : GatewayError),
      (run_llm_classification praw).confidence < VALIDATION_THRESHOLD →
      classify_documentE doc (Except.ok praw) (Except.error e) = Except.error e) ∧
    (∀ (praw vraw : LlmRaw),
      classify_documentE doc (Except.ok praw) (Except.ok vraw) =
        Except.ok (classify_document doc praw vraw)) := by
  refine ⟨fun e gwV => rfl, fun praw e h => ?_, fun praw vraw => ?_⟩
  · simp only [classify_documentE]
    rw [if_pos h]
  · by_cases h : (run_llm_classification praw).confidence < VALIDATION_THRESHOLD
    · simp only [classify_documentE, classify_document, resolved_of, if_pos h]
    · simp only [classify_documentE, classify_document, resolved_of, if_neg h]

/-- C9 witness: a missing API key on the primary call and an HTTP 500 on a
validator call (triggered by primary confidence 0.5) each abort the
classification with that error. -/
theorem c9_witness :
    classify_documentE c9w_doc (Except.error GatewayError.missingApiKey) (Except.ok noRaw) =
      Except.error GatewayError.missingApiKey ∧
    (run_llm_classification c9w_praw).confidence < VALIDATION_THRESHOLD ∧
    classify_documentE c9w_doc (Except.ok c9w_praw)
        (Except.error (GatewayError.httpError 500)) =
      Except.error (GatewayError.httpError 500) :=
  ⟨(c9_gateway_failure_propagation c9w_doc).1 GatewayError.missingApiKey (Except.ok noRaw),
   by decide,
   (c9_gateway_failure_propagation c9w_doc).2.1 c9w_praw (GatewayError.httpError 500)
     (by decide)⟩

/-- C10: `naive_unsafe_check` is true exactly when one of the fixed phrases
occurs in the lowercased single-space join of all page texts; in particular
it flags a document in which "how to make a" and "bomb" sit on two adjacent
pages even though neither page alone contains any listed phrase. -/
theorem c10_naive_unsafe_characterisation :
    (∀ pages : List Page,
      naive_unsafe_check pages = true ↔
        ∃ kw ∈ UNSAFE_KEYWORDS,
          strContains (lowerStr (joinSpace (pages.map Page.text))) kw = true) ∧
    naive_unsafe_check [⟨1, "how to make a"⟩, ⟨2, "bomb"⟩] = true ∧
    UNSAFE_KEYWORDS.all (fun kw => !strContains (lowerStr "how to make a") kw) = true ∧
    UNSAFE_KEYWORDS.all (fun kw => !strContains (lowerStr "bomb") kw) = true := by
  refine ⟨fun pages => ?_, by decide, by decide, by decide⟩
  simp [naive_unsafe_check, List.any_eq_true]
